import Mathlib

/-!
Shallow embedding of the health-news verification system's core
(`src/pubmed_search.py`, `src/agent.py`, `src/app.py`, `src/vector_store.py`).

External collaborators (the NCBI Entrez API, the Gemini reasoning model, the
Chroma vector collection) are modelled as explicit oracle parameters: an
oracle's outcome is `Except String α`, where `.error e` stands for the Python
call raising an exception with message `e`, and `.ok v` for a normal return.
Python dictionaries with optional keys become structures with `Option` fields;
`d.get(k, default)` becomes `Option.getD`; a bare `d[k]` on a missing key (a
raised `KeyError`) becomes a `none` case that the surrounding `try/except`
turns into the handler's result.
-/

/-- Substring containment, the meaning of the Python `in` operator on
strings: `strStarts p l` is `p` being a prefix of `l`, and
`strContainsAux p l` searches every tail of `l`. -/
def strStarts : List Char → List Char → Bool
  | [], _ => true
  | _ :: _, [] => false
  | a :: p, b :: l => a == b && strStarts p l

def strContainsAux (p : List Char) : List Char → Bool
  | [] => strStarts p []
  | b :: l => strStarts p (b :: l) || strContainsAux p l

/-- Python `pat in s` for strings: contiguous substring test. -/
def strContains (s pat : String) : Bool :=
  strContainsAux pat.data s.data

/-! ## PubMed searcher (`src/pubmed_search.py`) -/

/-- One entry of a fetched record's `AuthorList`: a Python dict that may or
may not carry the `LastName` and `Initials` keys (pubmed_search.py line 69). -/
structure PubAuthor where
  lastName : Option String
  initials : Option String

/-- The value found under `Abstract -> AbstractText`: the source handles both
a list of text fragments and a single non-list value, via `isinstance`
(pubmed_search.py lines 80-83). -/
inductive AbstractTextValue where
  | items : List String → AbstractTextValue
  | single : String → AbstractTextValue

/-- The dict under the `Abstract` key; `AbstractText` may be absent, in which
case `.get('AbstractText', [])` yields the empty list. -/
structure AbstractBlock where
  abstractText : Option AbstractTextValue

/-- `PubDate` dict: `Year` may be absent (pubmed_search.py line 87). -/
structure PubDate where
  year : Option String

/-- `JournalIssue` dict: `PubDate` may be absent. -/
structure JournalIssue where
  pubDate : Option PubDate

/-- `Journal` dict: `Title` and `JournalIssue` may be absent. -/
structure Journal where
  title : Option String
  journalIssue : Option JournalIssue

/-- The dict under `MedlineCitation -> Article`. Every field is optional and
read defensively with `.get` in the source, except none: the `Article` dict
itself is accessed with a bare index (line 63). -/
structure ArticleData where
  authorList : Option (List PubAuthor)
  abstract : Option AbstractBlock
  journal : Option Journal
  articleTitle : Option String

/-- `MedlineCitation` dict: `Article` (line 63) and `PMID` (line 90) are read
with bare indexing, so a missing key raises and the per-record handler skips
the record. -/
structure MedlineCitation where
  article : Option ArticleData
  pmid : Option String

/-- One element of the fetched `PubmedArticle` batch; `MedlineCitation` is
read with bare indexing (line 62). -/
structure PubmedArticle where
  medlineCitation : Option MedlineCitation

/-- Result of `Entrez.read` on the esearch handle: `IdList` is read with
`.get("IdList", [])` (line 40). -/
structure EsearchResult where
  idList : Option (List String)

/-- Result of `Entrez.read` on the efetch handle: `articles['PubmedArticle']`
is a bare index (line 60); a missing key raises inside the outer `try` and the
whole call degrades to the empty list. -/
structure EfetchResult where
  pubmedArticle : Option (List PubmedArticle)

/-- The paper dictionary appended at pubmed_search.py lines 92-100. -/
structure Paper where
  title : String
  abstract : String
  authors : String
  journal : String
  year : String
  pmid : String
  url : String
deriving DecidableEq

/-- Lines 69-70: an author is rendered `"{LastName} {Initials}"` only when
both keys are present; otherwise the entry is skipped. -/
def render_author (a : PubAuthor) : Option String :=
  match a.lastName, a.initials with
  | some ln, some ini => some (ln ++ " " ++ ini)
  | _, _ => none

/-- Lines 66-70: the rendered names of the first 3 entries of `AuthorList`
(absent list behaves as empty), keeping only entries with both keys. -/
def author_names (ad : ArticleData) : List String :=
  ((ad.authorList.getD []).take 3).filterMap render_author

/-- Lines 72-74: join the names with `", "` and append `", et al."` exactly
when the full author list has more than 3 entries. -/
def authors_str (ad : ArticleData) : String :=
  String.intercalate ", " (author_names ad) ++
    (if 3 < (ad.authorList.getD []).length then ", et al." else "")

/-- Lines 76-83: the abstract text before truncation — empty when the
`Abstract` key is absent, else the space-join of the `AbstractText` list, or
the single value itself when it is not a list. -/
def joined_abstract (ad : ArticleData) : String :=
  match ad.abstract with
  | none => ""
  | some ab =>
    match ab.abstractText.getD (.items []) with
    | .items l => String.intercalate " " l
    | .single s => s

/-- Line 94: `abstract[:500] + "..." if len(abstract) > 500 else abstract`. -/
def truncate_abstract (a : String) : String :=
  if 500 < a.length then String.mk (a.data.take 500) ++ "..." else a

/-- Line 87: the `.get` chain for the publication year. -/
def year_of (ad : ArticleData) : Option String :=
  ((ad.journal.bind Journal.journalIssue).bind JournalIssue.pubDate).bind PubDate.year

/-- Lines 61-104: parse one fetched record. `none` models the per-record
`except: continue` — it fires exactly when one of the bare key accesses
(`MedlineCitation`, `Article`, `PMID`) finds its key missing; everything else
is defaulted, never fatal. -/
def parse_article (art : PubmedArticle) : Option Paper :=
  match art.medlineCitation with
  | none => none
  | some medline =>
    match medline.article with
    | none => none
    | some article_data =>
      match medline.pmid with
      | none => none
      | some pmid =>
        some
          { title := article_data.articleTitle.getD "No title"
            abstract := truncate_abstract (joined_abstract article_data)
            authors :=
              if authors_str article_data = "" then "Unknown authors"
              else authors_str article_data
            journal := (article_data.journal.bind Journal.title).getD "Unknown Journal"
            year := (year_of article_data).getD "N/A"
            pmid := pmid
            url := "https://pubmed.ncbi.nlm.nih.gov/" ++ pmid ++ "/" }

/-- `PubMedSearcher.search` (pubmed_search.py lines 18-110). The two Entrez
round-trips are oracles: `esearchO query max_results` is the discovery call,
`efetchO id_list` the batched fetch. The outer `try/except` returns `[]` on
any raised error; an empty id list short-circuits to `[]` before the fetch. -/
def PubMedSearcher.search (query : String) (max_results : Nat)
    (esearchO : String → Nat → Except String EsearchResult)
    (efetchO : List String → Except String EfetchResult) : List Paper :=
  match esearchO query max_results with
  | .error _ => []
  | .ok search_results =>
    let id_list := search_results.idList.getD []
    if id_list.isEmpty then []
    else
      match efetchO id_list with
      | .error _ => []
      | .ok articles =>
        match articles.pubmedArticle with
        | none => []
        | some batch => batch.filterMap parse_article

/-! ## Orchestrator (`src/agent.py`) -/

/-- `HealthCheckAgent._get_system_prompt` (agent.py lines 131-182), the fixed
system instruction sent with every reasoning request. -/
def HealthCheckAgent.get_system_prompt : String :=
  "You are a health misinformation detection system designed for older adults in Nigeria.\n\nYour job is to evaluate health claims and provide clear, accurate, compassionate information.\n\nSEARCH STRATEGY:\n1. ALWAYS search the curated health myths database FIRST using search_curated_health_myths\n2. If the curated database has a good match (>75% relevant), use that information\n3. If NOT found or you need more scientific evidence, search PubMed using search_pubmed_research\n4. For complex claims, you may search both sources to provide comprehensive answers\n\nRESPONSE FORMAT - YOU MUST ALWAYS PROVIDE:\n\n**Verdict:** [TRUE / FALSE / PARTIALLY TRUE / UNCLEAR]\n\n**Confidence:** [0-100%]\n- 90-100%: Very confident, strong evidence\n- 70-89%: Confident, good evidence\n- 50-69%: Moderate confidence, some uncertainty\n- Below 50%: Low confidence, unclear or conflicting evidence\n\n**Explanation:**\n[Provide a clear, simple explanation that an older adult can understand. Use everyday language, avoid medical jargon. If you must use medical terms, explain them simply.]\n\n**Why This Matters:**\n[Explain the real-world consequences - what could happen if someone believes this myth]\n\n**What You Should Do Instead:**\n[Provide practical, actionable advice]\n\n**Trusted Sources:**\n- [Source 1 with specific citation]\n- [Source 2 with specific citation]\n- [Source 3 if available]\n\nIMPORTANT GUIDELINES:\n- Be compassionate and respectful. Many people believe these myths because they were told by trusted family or community members.\n- Never shame or mock people for believing myths\n- Acknowledge cultural beliefs while gently correcting dangerous misinformation\n- If a traditional practice is harmless but ineffective, acknowledge it while explaining what actually works\n- For serious conditions (HIV, malaria, typhoid), be very clear about the need for medical treatment\n- Always cite specific, authoritative sources (WHO, NCDC, peer-reviewed journals)\n- If you're uncertain, say so. Don't guess about medical facts.\n- For emergency situations (chest pain, severe bleeding, difficulty breathing), immediately advise seeking emergency medical care\n\nSPECIAL CONSIDERATIONS FOR NIGERIAN CONTEXT:\n- Reference Nigerian health authorities (NCDC, Federal Ministry of Health, NACA)\n- Consider traditional practices that are harmless vs. those that are dangerous\n- Be aware of common Nigerian health challenges (malaria, typhoid, hypertension)\n- Respect local context while prioritizing evidence-based medicine\n"

/-- The curated-evidence text used by `check_claim` (agent.py lines 200-204):
the serialized output of the curated-search tool, or, when that call raises,
the fixed fallback line. -/
def curated_context (curated_tool : String → Except String String)
    (claim : String) : String :=
  match curated_tool claim with
  | .ok s => s
  | .error _ => "No matching health myths found in curated database."

/-- The PubMed-evidence text used by `check_claim` (agent.py lines 206-210):
the serialized output of the PubMed tool, or, when that call raises, the
fixed fallback line. -/
def pubmed_context (pubmed_tool : String → Except String String)
    (claim : String) : String :=
  match pubmed_tool claim with
  | .ok s => s
  | .error _ => "No PubMed results found for this query."

/-- The labeled context block (agent.py lines 213-221): the triple-quoted
template `"\nCURATED_KNOWLEDGE:\n{cur}\n\nPUBMED_RESULTS:\n{pub}\n"`. -/
def context_block (cur pub : String) : String :=
  "\nCURATED_KNOWLEDGE:\n" ++ cur ++ "\n\nPUBMED_RESULTS:\n" ++ pub ++ "\n"

/-- The single user message (agent.py line 223):
`f"{claim}\n\nContext:\n{context}"`. -/
def build_user_content (claim cur pub : String) : String :=
  claim ++ "\n\nContext:\n" ++ context_block cur pub

/-- The dictionary returned by `check_claim` (agent.py line 237). -/
structure CheckClaimResult where
  claim : String
  response : String
  messages : List String
deriving DecidableEq

/-- `HealthCheckAgent.check_claim` (agent.py lines 184-237). The two
retrieval tools and the Gemini chat call are oracles. The second component
of the result is the log of completion requests issued to the reasoning
model, as (system prompt, user content) pairs: the source calls
`gemini_client.chat` exactly once, inside a `try` whose handler embeds the
error text in the response instead of raising. -/
def HealthCheckAgent.check_claim (claim : String)
    (curated_tool pubmed_tool : String → Except String String)
    (gemini_chat : String → String → Except String String) :
    CheckClaimResult × List (String × String) :=
  let curated_serialized := curated_context curated_tool claim
  let pubmed_serialized := pubmed_context pubmed_tool claim
  let user_content := build_user_content claim curated_serialized pubmed_serialized
  let response_text :=
    match gemini_chat HealthCheckAgent.get_system_prompt user_content with
    | .ok t => t
    | .error e => "Error calling Gemini: " ++ e
  ({ claim := claim, response := response_text, messages := [] },
   [(HealthCheckAgent.get_system_prompt, user_content)])

/-! ## Verdict extraction (`src/app.py` lines 358-375) -/

/-- The caller-side verdict parsing in `main`: an if/elif chain of substring
tests on the model's free text, defaulting to `"UNCLEAR"`. -/
def parse_verdict (response_text : String) : String :=
  if strContains response_text "Verdict:** FALSE"
      || strContains response_text "Verdict:** False" then "FALSE"
  else if strContains response_text "Verdict:** TRUE"
      || strContains response_text "Verdict:** True" then "TRUE"
  else if strContains response_text "Verdict:** PARTIALLY TRUE" then "PARTIALLY TRUE"
  else "UNCLEAR"

/-! ## Knowledge base (`src/vector_store.py`) -/

/-- The metadata dict attached to an indexed document
(vector_store.py lines 99-105). -/
structure DocMetadata where
  claim : String
  verdict : String
  confidence : Nat
  category : String
  language : String
deriving DecidableEq

/-- A langchain `Document` as used by the knowledge base. -/
structure Document where
  page_content : String
  metadata : DocMetadata
deriving DecidableEq

/-- A curated myth dict (data_loader.py shape, consumed at
vector_store.py lines 83-106); `language` is read with
`.get("language", "en")`. -/
structure Myth where
  claim : String
  verdict : String
  confidence : Nat
  explanation : String
  sources : List String
  category : String
  language : Option String

/-- Modelled from the spec: the persistent vector collection behind
`HealthKnowledgeBase` is the external Chroma store (not part of this
repository); per the collaborator contract (spec section 6) and section 4.1,
`addDocuments` appends to the collection with no deduplication and `count`
is the collection size. -/
structure VectorStore where
  docs : List Document

/-- Modelled from the spec: `add_documents` appends the given documents. -/
def VectorStore.add_documents (vs : VectorStore) (ds : List Document) : VectorStore :=
  { docs := vs.docs ++ ds }

/-- The deterministic content rendering of one myth
(vector_store.py lines 84-95), including the final `.strip()`. -/
def myth_content (m : Myth) : String :=
  String.trim
    ("\nHealth Claim: " ++ m.claim ++
     "\nVerdict: " ++ m.verdict ++
     "\nConfidence: " ++ toString m.confidence ++ "%\n\nExplanation: " ++
     m.explanation ++
     "\n\nTrusted Sources:\n" ++
     String.intercalate "\n" (m.sources.map (fun s => "- " ++ s)) ++
     "\n\nCategory: " ++ m.category ++ "\n            ")

/-- The `Document` built for one myth (vector_store.py lines 97-107). -/
def myth_to_document (m : Myth) : Document :=
  { page_content := myth_content m
    metadata :=
      { claim := m.claim
        verdict := m.verdict
        confidence := m.confidence
        category := m.category
        language := m.language.getD "en" } }

/-- `HealthKnowledgeBase.index_myths` (vector_store.py lines 75-111): build
one document per myth and add them all to the collection. -/
def HealthKnowledgeBase.index_myths (vs : VectorStore) (myths : List Myth) : VectorStore :=
  vs.add_documents (myths.map myth_to_document)

/-- `HealthKnowledgeBase.get_count` (vector_store.py lines 126-128). -/
def HealthKnowledgeBase.get_count (vs : VectorStore) : Nat :=
  vs.docs.length

/-! ## Concrete example records used in closed evaluation theorems -/

/-- A well-formed fetched record: citation, article and PMID present, title
`"A"`, everything else absent. -/
def sample_article_a : PubmedArticle :=
  ⟨some ⟨some { authorList := none, abstract := none, journal := none,
                articleTitle := some "A" }, some "1"⟩⟩

/-- A second well-formed fetched record with title `"B"` and PMID `"2"`. -/
def sample_article_b : PubmedArticle :=
  ⟨some ⟨some { authorList := none, abstract := none, journal := none,
                articleTitle := some "B" }, some "2"⟩⟩

/-- A malformed fetched record: the `MedlineCitation` key is missing, so the
bare access at pubmed_search.py line 62 raises and the record is skipped. -/
def malformed_article : PubmedArticle := ⟨none⟩

/-- The paper produced for `sample_article_a`. -/
def sample_paper_a : Paper :=
  { title := "A", abstract := "", authors := "Unknown authors",
    journal := "Unknown Journal", year := "N/A", pmid := "1",
    url := "https://pubmed.ncbi.nlm.nih.gov/1/" }

/-- The paper produced for `sample_article_b`. -/
def sample_paper_b : Paper :=
  { title := "B", abstract := "", authors := "Unknown authors",
    journal := "Unknown Journal", year := "N/A", pmid := "2",
    url := "https://pubmed.ncbi.nlm.nih.gov/2/" }

/-- A well-formed record whose abstract is a single 10,000-character text. -/
def big_abstract_article : PubmedArticle :=
  ⟨some ⟨some { authorList := none,
                abstract := some ⟨some (.single (String.mk (List.replicate 10000 'x')))⟩,
                journal := none, articleTitle := none }, some "9"⟩⟩

/-- Five complete author entries. -/
def five_authors : List PubAuthor :=
  [⟨some "Ade", some "A"⟩, ⟨some "Bello", some "B"⟩, ⟨some "Chike", some "C"⟩,
   ⟨some "Dada", some "D"⟩, ⟨some "Eze", some "E"⟩]

/-- The article data of a record with five complete author entries. -/
def five_author_data : ArticleData :=
  { authorList := some five_authors, abstract := none, journal := none,
    articleTitle := some "T" }

/-- A well-formed record with five complete author entries. -/
def five_author_article : PubmedArticle :=
  ⟨some ⟨some five_author_data, some "5"⟩⟩

/-- A well-formed record with no author list, no journal and no title. -/
def bare_article : PubmedArticle :=
  ⟨some ⟨some { authorList := none, abstract := none, journal := none,
                articleTitle := none }, some "7"⟩⟩

/-- A well-formed record with four author entries, none of which carries a
`LastName` or `Initials` key. -/
def four_incomplete_author_article : PubmedArticle :=
  ⟨some ⟨some { authorList := some [⟨none, none⟩, ⟨none, none⟩, ⟨none, none⟩, ⟨none, none⟩],
                abstract := none, journal := none, articleTitle := none },
         some "4"⟩⟩

/-! ## Helper lemmas -/

/-- `filterMap` drops nothing when `f` succeeds on every element. -/
theorem length_filterMap_all_some {α β : Type} (f : α → Option β) :
    ∀ l : List α, (∀ a ∈ l, (f a).isSome) → (l.filterMap f).length = l.length := by
  intro l
  induction l with
  | nil => intro _; rfl
  | cons a l ih =>
    intro h
    have ha := h a (List.mem_cons_self a l)
    obtain ⟨b, hb⟩ := Option.isSome_iff_exists.mp ha
    simp only [List.filterMap_cons, hb, List.length_cons]
    rw [ih (fun x hx => h x (List.mem_cons_of_mem a hx))]

/-- Evaluation of `parse_article` on a record whose three required keys are
present. -/
theorem parse_article_eq (art : PubmedArticle) (mc : MedlineCitation)
    (ad : ArticleData) (pmid : String)
    (h1 : art.medlineCitation = some mc) (h2 : mc.article = some ad)
    (h3 : mc.pmid = some pmid) :
    parse_article art = some
      { title := ad.articleTitle.getD "No title"
        abstract := truncate_abstract (joined_abstract ad)
        authors := if authors_str ad = "" then "Unknown authors" else authors_str ad
        journal := (ad.journal.bind Journal.title).getD "Unknown Journal"
        year := (year_of ad).getD "N/A"
        pmid := pmid
        url := "https://pubmed.ncbi.nlm.nih.gov/" ++ pmid ++ "/" } := by
  simp [parse_article, h1, h2, h3]

/-- A string with the non-empty suffix `", et al."` is itself non-empty. -/
theorem append_et_al_ne_empty (s : String) : s ++ ", et al." ≠ "" := by
  intro h
  have hl := congrArg String.length h
  rw [String.length_append] at hl
  have h8 : (", et al." : String).length = 8 := rfl
  rw [h8] at hl
  simp at hl

/-- C2: `PubMedSearcher.search` degrades every failure to the empty list: a
raised discovery-phase error, an empty identifier list, a raised fetch-phase
error, and a fetch response without the `PubmedArticle` key all yield `[]`
rather than a propagated error; the function is total, so it never raises. -/
theorem search_degrades_to_empty (q : String) (n : Nat)
    (es : String → Nat → Except String EsearchResult)
    (ef : List String → Except String EfetchResult) :
    (∀ e, es q n = .error e → PubMedSearcher.search q n es ef = []) ∧
    (∀ sr, es q n = .ok sr → sr.idList.getD [] = [] →
      PubMedSearcher.search q n es ef = []) ∧
    (∀ sr e, es q n = .ok sr → ef (sr.idList.getD []) = .error e →
      PubMedSearcher.search q n es ef = []) ∧
    (∀ sr fr, es q n = .ok sr → ef (sr.idList.getD []) = .ok fr →
      fr.pubmedArticle = none → PubMedSearcher.search q n es ef = []) := by
  refine ⟨?_, ?_, ?_, ?_⟩
  · intro e h
    simp [PubMedSearcher.search, h]
  · intro sr h hid
    simp [PubMedSearcher.search, h, hid]
  · intro sr e h hef
    by_cases hid : (sr.idList.getD []).isEmpty
    · simp [PubMedSearcher.search, h, hid]
    · simp [PubMedSearcher.search, h, hid, hef]
  · intro sr fr h hef hpa
    by_cases hid : (sr.idList.getD []).isEmpty
    · simp [PubMedSearcher.search, h, hid]
    · simp [PubMedSearcher.search, h, hid, hef, hpa]

/-- C2 witness: concrete failing oracles produce the empty result. -/
theorem search_degrades_to_empty_witness :
    PubMedSearcher.search "malaria" 3 (fun _ _ => .error "timeout")
      (fun _ => .error "timeout") = [] ∧
    PubMedSearcher.search "malaria" 3 (fun _ _ => .ok ⟨some []⟩)
      (fun _ => .error "timeout") = [] ∧
    PubMedSearcher.search "malaria" 3 (fun _ _ => .ok ⟨some ["1"]⟩)
      (fun _ => .error "503") = [] ∧
    PubMedSearcher.search "malaria" 3 (fun _ _ => .ok ⟨some ["1"]⟩)
      (fun _ => .ok ⟨none⟩) = [] := by
  refine ⟨?_, ?_, ?_, ?_⟩
  · exact (search_degrades_to_empty "malaria" 3 _ _).1 "timeout" rfl
  · exact (search_degrades_to_empty "malaria" 3 _ _).2.1 ⟨some []⟩ rfl rfl
  · exact (search_degrades_to_empty "malaria" 3 _ _).2.2.1 ⟨some ["1"]⟩ "503" rfl rfl
  · exact (search_degrades_to_empty "malaria" 3 _ _).2.2.2 ⟨some ["1"]⟩ ⟨none⟩ rfl rfl rfl

/-- C3: once discovery succeeds with a non-empty identifier list and the
fetch returns a batch, `PubMedSearcher.search` parses each record
independently (`filterMap`): a batch of three records of which exactly the
middle one is malformed yields exactly the two well-formed papers. -/
theorem search_keeps_wellformed (q : String) (n : Nat)
    (es : String → Nat → Except String EsearchResult)
    (ef : List String → Except String EfetchResult) (sr : EsearchResult)
    (r1 rb r2 : PubmedArticle) (p1 p2 : Paper)
    (hes : es q n = .ok sr) (hid : (sr.idList.getD []).isEmpty = false) :
    (∀ batch, ef (sr.idList.getD []) = .ok ⟨some batch⟩ →
      PubMedSearcher.search q n es ef = batch.filterMap parse_article) ∧
    (ef (sr.idList.getD []) = .ok ⟨some [r1, rb, r2]⟩ →
      parse_article r1 = some p1 → parse_article rb = none →
      parse_article r2 = some p2 →
      PubMedSearcher.search q n es ef = [p1, p2]) := by
  constructor
  · intro batch hef
    simp [PubMedSearcher.search, hes, hid, hef]
  · intro hef h1 hb h2
    simp [PubMedSearcher.search, hes, hid, hef, List.filterMap_cons, h1, hb, h2]

/-- C3 witness: a concrete three-record batch with one malformed record
returns exactly the two well-formed papers. -/
theorem search_keeps_wellformed_witness :
    PubMedSearcher.search "malaria" 3 (fun _ _ => .ok ⟨some ["1", "2", "3"]⟩)
      (fun _ => .ok ⟨some [sample_article_a, malformed_article, sample_article_b]⟩)
      = [sample_paper_a, sample_paper_b] := by
  exact (search_keeps_wellformed "malaria" 3 _ _ ⟨some ["1", "2", "3"]⟩
    sample_article_a malformed_article sample_article_b sample_paper_a sample_paper_b
    rfl rfl).2 rfl rfl rfl rfl

/-- C5: for every well-formed fetched record, the paper's abstract is the
joined abstract unchanged when its length is at most 500 characters, and
exactly its first 500 characters followed by the marker `"..."` otherwise. -/
theorem abstract_truncation (art : PubmedArticle) (mc : MedlineCitation)
    (ad : ArticleData) (pmid : String)
    (h1 : art.medlineCitation = some mc) (h2 : mc.article = some ad)
    (h3 : mc.pmid = some pmid) :
    ∃ p, parse_article art = some p ∧
      p.abstract = (if (joined_abstract ad).length ≤ 500 then joined_abstract ad
        else String.mk ((joined_abstract ad).data.take 500) ++ "...") := by
  refine ⟨_, parse_article_eq art mc ad pmid h1 h2 h3, ?_⟩
  show truncate_abstract (joined_abstract ad) = _
  unfold truncate_abstract
  by_cases h : (joined_abstract ad).length ≤ 500
  · rw [if_neg (by omega), if_pos h]
  · rw [if_pos (by omega), if_neg h]

/-- C5 witness: a record with a 10,000-character abstract is truncated to its
first 500 characters plus the marker. -/
theorem abstract_truncation_witness :
    ∃ p, parse_article big_abstract_article = some p ∧
      p.abstract = String.mk (List.replicate 500 'x') ++ "..." := by
  obtain ⟨p, hp, ha⟩ :=
    abstract_truncation big_abstract_article _ _ _ rfl rfl rfl
  refine ⟨p, hp, ?_⟩
  rw [ha]
  have hj : joined_abstract
      { authorList := none,
        abstract := some ⟨some (.single (String.mk (List.replicate 10000 'x')))⟩,
        journal := none, articleTitle := none } =
      String.mk (List.replicate 10000 'x') := rfl
  rw [hj]
  have hlen : (String.mk (List.replicate 10000 'x')).length = 10000 := by
    show (List.replicate 10000 'x').length = 10000
    rw [List.length_replicate]
  rw [if_neg (by rw [hlen]; omega)]
  show String.mk ((List.replicate 10000 'x').take 500) ++ "..." = _
  rw [List.take_replicate]
  have hmin : (500 : Nat) ⊓ 10000 = 500 := by norm_num
  rw [hmin]

/-- C6: for every well-formed fetched record with an author list, the
rendered names are those of the first 3 entries only (at most 3 names), the
`", et al."` suffix is appended exactly when the full list has more than 3
entries, and a record with 5 complete author entries renders exactly 3
names. -/
theorem authors_first_three (art : PubmedArticle) (mc : MedlineCitation)
    (ad : ArticleData) (pmid : String) (l : List PubAuthor)
    (h1 : art.medlineCitation = some mc) (h2 : mc.article = some ad)
    (h3 : mc.pmid = some pmid) (hl : ad.authorList = some l) :
    ∃ p, parse_article art = some p ∧
      author_names ad = (l.take 3).filterMap render_author ∧
      (author_names ad).length ≤ 3 ∧
      (3 < l.length →
        p.authors = String.intercalate ", " (author_names ad) ++ ", et al.") ∧
      (l.length ≤ 3 →
        p.authors = (if String.intercalate ", " (author_names ad) = ""
          then "Unknown authors" else String.intercalate ", " (author_names ad))) ∧
      ((∀ a ∈ l, (render_author a).isSome) → l.length = 5 →
        (author_names ad).length = 3) := by
  refine ⟨_, parse_article_eq art mc ad pmid h1 h2 h3, ?_, ?_, ?_, ?_, ?_⟩
  · simp [author_names, hl]
  · calc (author_names ad).length
        ≤ ((ad.authorList.getD []).take 3).length := List.length_filterMap_le _ _
      _ ≤ 3 := by simp [List.length_take]
  · intro hgt
    show (if authors_str ad = "" then "Unknown authors" else authors_str ad) = _
    have hs : authors_str ad = String.intercalate ", " (author_names ad) ++ ", et al." := by
      simp [authors_str, hl, hgt]
    rw [hs, if_neg (append_et_al_ne_empty _)]
  · intro hle
    show (if authors_str ad = "" then "Unknown authors" else authors_str ad) = _
    have hs : authors_str ad = String.intercalate ", " (author_names ad) := by
      have : ¬ 3 < (ad.authorList.getD []).length := by simp [hl]; omega
      simp [authors_str, this]
    rw [hs]
  · intro hall h5
    have ht : (l.take 3).length = 3 := by simp [List.length_take, h5]
    rw [author_names, hl]
    show ((l.take 3).filterMap render_author).length = 3
    rw [length_filterMap_all_some render_author (l.take 3)
      (fun a ha => hall a (List.take_subset 3 l ha))]
    exact ht

/-- C6 witness: a record with five complete authors renders exactly the
first three names followed by `", et al."`. -/
theorem authors_first_three_witness :
    ∃ p, parse_article five_author_article = some p ∧
      p.authors = "Ade A, Bello B, Chike C, et al." ∧
      (author_names five_author_data).length = 3 := by
  obtain ⟨p, hp, _, _, hgt, _, hfive⟩ :=
    authors_first_three five_author_article _ _ _ _ rfl rfl rfl rfl
  refine ⟨p, hp, ?_, ?_⟩
  · rw [hgt (by decide)]
    rfl
  · exact hfive (by decide) (by decide)

/-- C7: for every otherwise well-formed fetched record, a missing publication
year renders as `"N/A"` and a missing title as `"No title"`, and the record
is still parsed (not dropped, no error). -/
theorem missing_fields_default (art : PubmedArticle) (mc : MedlineCitation)
    (ad : ArticleData) (pmid : String)
    (h1 : art.medlineCitation = some mc) (h2 : mc.article = some ad)
    (h3 : mc.pmid = some pmid) :
    ∃ p, parse_article art = some p ∧
      (year_of ad = none → p.year = "N/A") ∧
      (ad.articleTitle = none → p.title = "No title") := by
  refine ⟨_, parse_article_eq art mc ad pmid h1 h2 h3, ?_, ?_⟩
  · intro hy
    show (year_of ad).getD "N/A" = "N/A"
    rw [hy]
    rfl
  · intro ht
    show ad.articleTitle.getD "No title" = "No title"
    rw [ht]
    rfl

/-- C7 witness: a record with no journal information and no title parses to a
paper with year `"N/A"` and title `"No title"`. -/
theorem missing_fields_default_witness :
    ∃ p, parse_article bare_article = some p ∧
      p.year = "N/A" ∧ p.title = "No title" := by
  obtain ⟨p, hp, hy, ht⟩ := missing_fields_default bare_article _ _ _ rfl rfl rfl
  exact ⟨p, hp, hy rfl, ht rfl⟩

/-- C1 counterexample: when both evidence tools succeed and the reasoning
call succeeds but returns the empty string (which `gemini_client.chat` can
do when the response object carries no text), `check_claim` returns a result
whose response — the `verdictText` — is empty, so the returned verdict text
is not always non-empty. -/
theorem check_claim_empty_response :
    (HealthCheckAgent.check_claim "Hot water cures malaria"
      (fun _ => .ok "curated block") (fun _ => .ok "pubmed block")
      (fun _ _ => .ok "")).1.response = "" := rfl

/-- C1 (amended): `check_claim` is a total function — it always returns a
result carrying the input claim; a curated-search failure is replaced by the
fixed curated fallback line, a literature-search failure by the fixed PubMed
fallback line; a reasoning-call failure is caught and becomes the non-empty
text `"Error calling Gemini: <e>"` embedded in the response; when the
reasoning call succeeds the response is exactly the model's text, which the
code does not guarantee to be non-empty. -/
theorem check_claim_always_answers (claim : String)
    (curated_tool pubmed_tool : String → Except String String)
    (gemini_chat : String → String → Except String String) :
    (HealthCheckAgent.check_claim claim curated_tool pubmed_tool gemini_chat).1.claim
        = claim ∧
    (∀ e, curated_tool claim = .error e →
      curated_context curated_tool claim =
        "No matching health myths found in curated database.") ∧
    (∀ e, pubmed_tool claim = .error e →
      pubmed_context pubmed_tool claim = "No PubMed results found for this query.") ∧
    (∀ e, gemini_chat HealthCheckAgent.get_system_prompt
        (build_user_content claim (curated_context curated_tool claim)
          (pubmed_context pubmed_tool claim)) = .error e →
      (HealthCheckAgent.check_claim claim curated_tool pubmed_tool gemini_chat).1.response
          = "Error calling Gemini: " ++ e ∧
      (HealthCheckAgent.check_claim claim curated_tool pubmed_tool gemini_chat).1.response
          ≠ "") ∧
    (∀ t, gemini_chat HealthCheckAgent.get_system_prompt
        (build_user_content claim (curated_context curated_tool claim)
          (pubmed_context pubmed_tool claim)) = .ok t →
      (HealthCheckAgent.check_claim claim curated_tool pubmed_tool gemini_chat).1.response
          = t) := by
  refine ⟨rfl, ?_, ?_, ?_, ?_⟩
  · intro e h
    simp [curated_context, h]
  · intro e h
    simp [pubmed_context, h]
  · intro e h
    constructor
    · simp [HealthCheckAgent.check_claim, h]
    · simp only [HealthCheckAgent.check_claim, h]
      intro hempty
      have hl := congrArg String.length hempty
      rw [String.length_append] at hl
      have h22 : ("Error calling Gemini: " : String).length = 22 := rfl
      rw [h22] at hl
      simp at hl
  · intro t h
    simp [HealthCheckAgent.check_claim, h]

/-- C1 witness: with all three collaborators failing, the result carries the
claim and the non-empty embedded Gemini error text, and both fallback lines
are used. -/
theorem check_claim_always_answers_witness :
    (HealthCheckAgent.check_claim "c" (fun _ => .error "kb down")
      (fun _ => .error "net down") (fun _ _ => .error "api down")).1.response
        = "Error calling Gemini: " ++ "api down" ∧
    (HealthCheckAgent.check_claim "c" (fun _ => .error "kb down")
      (fun _ => .error "net down") (fun _ _ => .error "api down")).1.response ≠ "" ∧
    curated_context (fun _ => .error "kb down") "c" =
      "No matching health myths found in curated database." ∧
    pubmed_context (fun _ => .error "net down") "c" =
      "No PubMed results found for this query." := by
  have h := check_claim_always_answers "c" (fun _ => .error "kb down")
    (fun _ => .error "net down") (fun _ _ => .error "api down")
  exact ⟨(h.2.2.2.1 "api down" rfl).1, (h.2.2.2.1 "api down" rfl).2,
    h.2.1 "kb down" rfl, h.2.2.1 "net down" rfl⟩

/-- C4: `check_claim` issues exactly one completion request; its system
message is the fixed system prompt, and its user content is the claim
followed by the labeled context block — the curated text under
`CURATED_KNOWLEDGE:` preceding the PubMed text under `PUBMED_RESULTS:`.
When a tool succeeds, the text placed under its label is exactly the block
the tool returned. -/
theorem check_claim_single_request (claim : String)
    (curated_tool pubmed_tool : String → Except String String)
    (gemini_chat : String → String → Except String String) :
    (HealthCheckAgent.check_claim claim curated_tool pubmed_tool gemini_chat).2 =
      [(HealthCheckAgent.get_system_prompt,
        claim ++ "\n\nContext:\n" ++
          ("\nCURATED_KNOWLEDGE:\n" ++ curated_context curated_tool claim ++
            "\n\nPUBMED_RESULTS:\n" ++ pubmed_context pubmed_tool claim ++ "\n"))] ∧
    (∀ s, curated_tool claim = .ok s → curated_context curated_tool claim = s) ∧
    (∀ s, pubmed_tool claim = .ok s → pubmed_context pubmed_tool claim = s) := by
  refine ⟨rfl, ?_, ?_⟩
  · intro s h
    simp [curated_context, h]
  · intro s h
    simp [pubmed_context, h]

/-- C4 witness: with a concrete matching myth block returned by the curated
store, the single request's user content carries the claim and that literal
block under `CURATED_KNOWLEDGE:`, before the PubMed section. -/
theorem check_claim_single_request_witness :
    (HealthCheckAgent.check_claim "Hot water cures malaria"
      (fun _ => .ok "--- Curated Knowledge Result 1 ---\nVerdict: FALSE\nConfidence: 95%")
      (fun _ => .ok "No PubMed results found for this query.")
      (fun _ _ => .ok "fine")).2 =
      [(HealthCheckAgent.get_system_prompt,
        "Hot water cures malaria" ++ "\n\nContext:\n" ++
          ("\nCURATED_KNOWLEDGE:\n" ++
            "--- Curated Knowledge Result 1 ---\nVerdict: FALSE\nConfidence: 95%" ++
            "\n\nPUBMED_RESULTS:\n" ++ "No PubMed results found for this query." ++
            "\n"))] ∧
    curated_context
      (fun _ => .ok "--- Curated Knowledge Result 1 ---\nVerdict: FALSE\nConfidence: 95%")
      "Hot water cures malaria" =
      "--- Curated Knowledge Result 1 ---\nVerdict: FALSE\nConfidence: 95%" := by
  have h := check_claim_single_request "Hot water cures malaria"
    (fun _ => .ok "--- Curated Knowledge Result 1 ---\nVerdict: FALSE\nConfidence: 95%")
    (fun _ => .ok "No PubMed results found for this query.")
    (fun _ _ => .ok "fine")
  exact ⟨h.1, h.2.1 _ rfl⟩

/-- C8: the caller-side verdict extraction is a pure substring match with a
fixed priority: `"FALSE"` exactly when the text contains
`Verdict:** FALSE` or `Verdict:** False`; otherwise `"TRUE"` exactly when it
contains `Verdict:** TRUE` or `Verdict:** True`; otherwise
`"PARTIALLY TRUE"` exactly when it contains `Verdict:** PARTIALLY TRUE`; and
`"UNCLEAR"` in every other case. -/
theorem parse_verdict_characterization (t : String) :
    (parse_verdict t = "FALSE" ↔
      (strContains t "Verdict:** FALSE" || strContains t "Verdict:** False") = true) ∧
    (parse_verdict t = "TRUE" ↔
      ((strContains t "Verdict:** FALSE" || strContains t "Verdict:** False") = false ∧
       (strContains t "Verdict:** TRUE" || strContains t "Verdict:** True") = true)) ∧
    (parse_verdict t = "PARTIALLY TRUE" ↔
      ((strContains t "Verdict:** FALSE" || strContains t "Verdict:** False") = false ∧
       (strContains t "Verdict:** TRUE" || strContains t "Verdict:** True") = false ∧
       strContains t "Verdict:** PARTIALLY TRUE" = true)) ∧
    (parse_verdict t = "UNCLEAR" ↔
      ((strContains t "Verdict:** FALSE" || strContains t "Verdict:** False") = false ∧
       (strContains t "Verdict:** TRUE" || strContains t "Verdict:** True") = false ∧
       strContains t "Verdict:** PARTIALLY TRUE" = false)) := by
  cases h1 : (strContains t "Verdict:** FALSE" || strContains t "Verdict:** False") <;>
    cases h2 : (strContains t "Verdict:** TRUE" || strContains t "Verdict:** True") <;>
      cases h3 : strContains t "Verdict:** PARTIALLY TRUE" <;>
        simp [parse_verdict, h1, h2, h3]

/-- C9: the knowledge-base collection grows monotonically with no
deduplication: indexing `n` myths raises the count by exactly `n`, and
indexing the same myths again appends `n` further duplicate documents, so the
count rises by `n` once more instead of staying unchanged. -/
theorem index_myths_monotone (vs : VectorStore) (myths : List Myth) :
    HealthKnowledgeBase.get_count (HealthKnowledgeBase.index_myths vs myths) =
      HealthKnowledgeBase.get_count vs + myths.length ∧
    HealthKnowledgeBase.get_count
        (HealthKnowledgeBase.index_myths (HealthKnowledgeBase.index_myths vs myths) myths) =
      HealthKnowledgeBase.get_count vs + 2 * myths.length ∧
    (HealthKnowledgeBase.index_myths (HealthKnowledgeBase.index_myths vs myths) myths).docs =
      vs.docs ++ myths.map myth_to_document ++ myths.map myth_to_document := by
  refine ⟨?_, ?_, ?_⟩
  · simp [HealthKnowledgeBase.get_count, HealthKnowledgeBase.index_myths,
      VectorStore.add_documents]
  · simp [HealthKnowledgeBase.get_count, HealthKnowledgeBase.index_myths,
      VectorStore.add_documents]
    omega
  · simp [HealthKnowledgeBase.index_myths, VectorStore.add_documents]

/-- C10 counterexample: a record whose four author entries all lack
`LastName` and `Initials` qualifies no author, yet its authors field renders
as `", et al."`, not as the claimed fallback `"Unknown authors"` — the
`len(AuthorList) > 3` suffix makes the string truthy before the fallback is
consulted. -/
theorem unknown_authors_cex :
    (parse_article four_incomplete_author_article).map Paper.authors =
      some ", et al." ∧
    (", et al." : String) ≠ "Unknown authors" := by
  constructor
  · rfl
  · decide

/-- C10 (amended): an author entry lacking `LastName` or `Initials` is
omitted from the rendered names; when no entry qualifies, the authors field
renders as `"Unknown authors"` only when the record's author list has at most
3 entries (including when it is absent) — with more than 3 entries and none
qualifying, it renders as `", et al."` instead. -/
theorem unknown_authors_fallback (art : PubmedArticle) (mc : MedlineCitation)
    (ad : ArticleData) (pmid : String)
    (h1 : art.medlineCitation = some mc) (h2 : mc.article = some ad)
    (h3 : mc.pmid = some pmid) :
    (∀ a : PubAuthor, a.lastName = none ∨ a.initials = none →
      render_author a = none) ∧
    ∃ p, parse_article art = some p ∧
      (author_names ad = [] → (ad.authorList.getD []).length ≤ 3 →
        p.authors = "Unknown authors") ∧
      (author_names ad = [] → 3 < (ad.authorList.getD []).length →
        p.authors = ", et al.") := by
  constructor
  · intro a ha
    rcases ha with h | h <;> simp [render_author, h]
  refine ⟨_, parse_article_eq art mc ad pmid h1 h2 h3, ?_, ?_⟩
  · intro hn hle
    show (if authors_str ad = "" then "Unknown authors" else authors_str ad) = _
    have hs : authors_str ad = "" := by
      unfold authors_str
      rw [hn, if_neg (by omega)]
      rfl
    rw [if_pos hs]
  · intro hn hgt
    show (if authors_str ad = "" then "Unknown authors" else authors_str ad) = _
    have hs : authors_str ad = ", et al." := by
      unfold authors_str
      rw [hn, if_pos hgt]
      rfl
    rw [hs, if_neg (by decide)]

/-- C10 amended-claim witness: a record with no author list at all renders
its authors field as `"Unknown authors"`. -/
theorem unknown_authors_fallback_witness :
    (∃ p, parse_article bare_article = some p ∧ p.authors = "Unknown authors") ∧
    render_author ⟨none, some "A"⟩ = none := by
  have h := unknown_authors_fallback bare_article _ _ _ rfl rfl rfl
  obtain ⟨p, hp, hfb, _⟩ := h.2
  exact ⟨⟨p, hp, hfb rfl (by decide)⟩, h.1 ⟨none, some "A"⟩ (Or.inl rfl)⟩
